import Mathlib

/-!
Shallow embedding of the Theater Mode whisper/eventing core of the
tulip.arke.me web client, together with theorems checking the spec's
claims about it.

Sources embedded:
* `src/web/src/theater/stores/messages` (createMessageStore, toTheaterMessage,
  formatWhisperRecipientsWithNames, users store helpers),
* `src/web/src/theater/events/handler.ts` (poll loop, dispatchEvent and the
  per-event handlers),
* the typing store (createTypingStore with its per-typist expiry timers).

TypeScript numbers used as ids/timestamps are modelled as `Int` (ids may be
compared to the initial `lastEventId = -1`).  `undefined`/absent fields are
`Option`; where the source distinguishes `undefined` from `null`
(`whisper_recipients`), the field is `Option (Option _)`, with `none` for
`undefined` and `some none` for `null`.  TypeScript exceptions are modelled
with `Except String`.
-/

namespace Tulip

/-- Model of `WhisperRecipients` from the messages store: both arrays are optional
in the TypeScript interface. -/
structure WhisperRecipients where
  user_ids : Option (List Int)
  group_ids : Option (List Int)
deriving Repr, DecidableEq

/-- Model of `UserInfo` from the users store. -/
structure UserInfo where
  user_id : Int
  full_name : String
  avatar_url : Option String
deriving Repr, DecidableEq

/-- A raw API message record, with exactly the fields `toTheaterMessage`
reads off the untyped `Record<string, unknown>`. -/
structure RawMessage where
  id : Int
  msgtype : String
  sender_id : Int
  sender_full_name : String
  sender_email : String
  avatar_url : Option String
  content : String
  rendered_content : Option String
  timestamp : Int
  stream_id : Option Int
  subject : Option String
  topic : Option String
  persona_id : Option Int
  persona_display_name : Option String
  persona_avatar_url : Option String
  persona_color : Option String
  puppet_display_name : Option String
  puppet_avatar_url : Option String
  whisper_recipients : Option (Option WhisperRecipients)
  flags : Option (List String)
deriving Repr, DecidableEq

/-- Model of `TheaterMessage` as constructed by `toTheaterMessage`. -/
structure TheaterMessage where
  id : Int
  msgtype : String
  sender_id : Int
  sender_full_name : String
  sender_email : String
  avatar_url : Option String
  content : String
  rendered_content : String
  timestamp : Int
  stream_id : Option Int
  topic : Option String
  persona_id : Option Int
  persona_display_name : Option String
  persona_avatar_url : Option String
  persona_color : Option String
  puppet_display_name : Option String
  puppet_avatar_url : Option String
  whisper_recipients : Option WhisperRecipients
  characterName : String
  characterAvatar : Option String
  characterColor : Option String
  isWhisper : Bool
  whisperRecipientsText : Option String
  isRead : Bool
  streamId : Option Int
deriving Repr, DecidableEq

/-- Model of `users.getUserName`: full name when known, else a `User #id` fallback. -/
def getUserName (users : List UserInfo) (userId : Int) : String :=
  match users.find? (fun u => u.user_id == userId) with
  | some u => u.full_name
  | none => s!"User #{userId}"

/-- Model of `formatWhisperRecipientsWithNames` from the users store. -/
def formatWhisperRecipientsWithNames (users : List UserInfo)
    (recipients : Option WhisperRecipients) : String :=
  match recipients with
  | none => "whisper"
  | some r =>
    let userParts : List String :=
      match r.user_ids with
      | some ids =>
        if ids.length > 0 then
          let names := ids.map (getUserName users)
          if names.length ≤ 3 then
            [String.intercalate ", " names]
          else
            let head2 := String.intercalate ", " (names.take 2)
            let more := names.length - 2
            [s!"{head2} +{more} more"]
        else []
      | none => []
    let groupParts : List String :=
      match r.group_ids with
      | some gs =>
        if gs.length > 0 then
          let n := gs.length
          [s!"{n} group(s)"]
        else []
      | none => []
    let parts := userParts ++ groupParts
    if parts.length > 0 then
      let joined := String.intercalate ", " parts
      s!"to {joined}"
    else "whisper"

/-- Model of `toTheaterMessage` from the messages store: converts a raw API message
to a `TheaterMessage`, computing the persona/puppet/sender fallbacks, the
whisper flag and the read flag. -/
def toTheaterMessage (users : List UserInfo) (raw : RawMessage) : TheaterMessage :=
  let personaName := raw.persona_display_name
  let puppetName := raw.puppet_display_name
  let senderName := raw.sender_full_name
  let personaAvatar := raw.persona_avatar_url
  let puppetAvatar := raw.puppet_avatar_url
  let senderAvatar := raw.avatar_url
  let personaColor := raw.persona_color
  -- whisperRecipients !== null && whisperRecipients !== undefined
  let whisperRecipients : Option WhisperRecipients :=
    match raw.whisper_recipients with
    | some (some wr) => some wr
    | _ => none
  let isWhisper : Bool :=
    match raw.whisper_recipients with
    | some (some _) => true
    | _ => false
  let flags := raw.flags.getD []
  let isRead := flags.contains "read"
  let topic := match raw.subject with
    | some s => some s
    | none => raw.topic
  { id := raw.id
    msgtype := raw.msgtype
    sender_id := raw.sender_id
    sender_full_name := senderName
    sender_email := raw.sender_email
    avatar_url := senderAvatar
    content := raw.content
    rendered_content := raw.rendered_content.getD raw.content
    timestamp := raw.timestamp
    stream_id := raw.stream_id
    topic := topic
    persona_id := raw.persona_id
    persona_display_name := personaName
    persona_avatar_url := personaAvatar
    persona_color := personaColor
    puppet_display_name := puppetName
    puppet_avatar_url := puppetAvatar
    whisper_recipients := whisperRecipients
    characterName := personaName.getD (puppetName.getD senderName)
    characterAvatar :=
      match personaAvatar with
      | some a => some a
      | none =>
        match puppetAvatar with
        | some a => some a
        | none => senderAvatar
    characterColor := personaColor
    isWhisper := isWhisper
    whisperRecipientsText :=
      if isWhisper then some (formatWhisperRecipientsWithNames users whisperRecipients)
      else none
    isRead := isRead
    streamId := raw.stream_id }

/-! ## The message store (createMessageStore) -/

/-- The comparator `(a, b) => a.id - b.id` as an ordering relation. -/
def msgLe (a b : TheaterMessage) : Prop := a.id ≤ b.id

instance : DecidableRel msgLe := fun a b => Int.decLe a.id b.id

instance : IsTotal TheaterMessage msgLe := ⟨fun a b => Int.le_total a.id b.id⟩

instance : IsTrans TheaterMessage msgLe := ⟨fun _ _ _ => Int.le_trans⟩

/-- The JavaScript `sort((a, b) => a.id - b.id)`: a stable sort by id,
modelled by insertion sort (stable for this comparator). -/
def sortById (l : List TheaterMessage) : List TheaterMessage :=
  List.insertionSort msgLe l

/-- The dedup-by-id pass shared by `addMessages` and `prependMessages`:
keeps the first occurrence of each id. -/
def dedupById : List Int → List TheaterMessage → List TheaterMessage
  | _, [] => []
  | seen, m :: rest =>
    if m.id ∈ seen then dedupById seen rest
    else m :: dedupById (m.id :: seen) rest

/-- Model of `messages.addMessage`: append, then sort by id.  No deduplication. -/
def addMessage (msg : TheaterMessage) (messages : List TheaterMessage) :
    List TheaterMessage :=
  sortById (messages ++ [msg])

/-- Model of `messages.addMessages`: concatenate store-first, sort, dedup by id. -/
def addMessages (msgs : List TheaterMessage) (messages : List TheaterMessage) :
    List TheaterMessage :=
  dedupById [] (sortById (messages ++ msgs))

/-- Model of `messages.prependMessages`: concatenate incoming-first, sort, dedup. -/
def prependMessages (msgs : List TheaterMessage) (messages : List TheaterMessage) :
    List TheaterMessage :=
  dedupById [] (sortById (msgs ++ messages))

/-- The partial patch `handleUpdateMessageEvent` builds: only these three
fields can appear in `updates`. -/
structure UpdatePatch where
  content : Option String
  rendered_content : Option String
  topic : Option String
deriving Repr, DecidableEq

/-- Spreading the patch over a stored message (`{...m, ...updates}`). -/
def applyPatch (m : TheaterMessage) (p : UpdatePatch) : TheaterMessage :=
  { m with
    content := p.content.getD m.content
    rendered_content := p.rendered_content.getD m.rendered_content
    topic := match p.topic with
      | some t => some t
      | none => m.topic }

/-- Model of `messages.updateMessage`: patch the message whose id matches; `mid` is
`Option` because the handler can pass an absent `message_id` (then
`m.id === messageId` never holds). -/
def updateMessage (mid : Option Int) (p : UpdatePatch)
    (messages : List TheaterMessage) : List TheaterMessage :=
  messages.map (fun m => if some m.id = mid then applyPatch m p else m)

/-- Model of `messages.removeMessage`. -/
def removeMessage (mid : Int) (messages : List TheaterMessage) :
    List TheaterMessage :=
  messages.filter (fun m => m.id ≠ mid)

/-- Model of `messages.markAsRead`. -/
def markAsRead (mid : Int) (messages : List TheaterMessage) :
    List TheaterMessage :=
  messages.map (fun m => if m.id = mid then { m with isRead := true } else m)

/-! ## The event handler (handler.ts) -/

/-- A raw event record, with exactly the fields the dispatcher and the
per-event handlers read.  Fields absent from a given event are `none`
(`undefined` in the source). -/
structure RawEvent where
  id : Int
  evtype : String
  message : Option RawMessage
  message_id : Option Int
  content : Option String
  rendered_content : Option String
  subject : Option String
  topic : Option String
  message_ids : Option (List Int)
deriving Repr, DecidableEq

/-- Model of `handleMessageEvent`: reads `event["message"]`; when it is absent,
`toTheaterMessage(undefined)` throws a `TypeError` on its first property
access.  Otherwise the converted message is added to the store
unconditionally. -/
def handleMessageEvent (users : List UserInfo) (e : RawEvent)
    (store : List TheaterMessage) : Except String (List TheaterMessage) :=
  match e.message with
  | none => .error "TypeError: cannot read properties of undefined"
  | some raw => .ok (addMessage (toTheaterMessage users raw) store)

/-- The `updates` object `handleUpdateMessageEvent` builds from the event. -/
def patchOfEvent (e : RawEvent) : UpdatePatch :=
  { rendered_content := e.rendered_content
    content := e.content
    topic := match e.subject with
      | some s => some s
      | none => e.topic }

/-- Model of `Object.keys(updates).length > 0`. -/
def patchNonempty (p : UpdatePatch) : Bool :=
  p.content.isSome || p.rendered_content.isSome || p.topic.isSome

/-- Model of `handleUpdateMessageEvent`: build the partial patch and apply it to the
message with the event's `message_id`, if any fields are present. -/
def handleUpdateMessageEvent (e : RawEvent) (store : List TheaterMessage) :
    List TheaterMessage :=
  let p := patchOfEvent e
  if patchNonempty p then updateMessage e.message_id p store else store

/-- Model of `handleDeleteMessageEvent`: iterates `event["message_ids"]`; iterating
an absent array throws a `TypeError`. -/
def handleDeleteMessageEvent (e : RawEvent) (store : List TheaterMessage) :
    Except String (List TheaterMessage) :=
  match e.message_ids with
  | none => .error "TypeError: undefined is not iterable"
  | some ids => .ok (ids.foldl (fun s i => removeMessage i s) store)

/-- Model of `dispatchEvent`, projected onto the message store.  `typing`,
`presence` and `reaction` events mutate separate stores (modelled
elsewhere) and never throw, so here they leave the message store
unchanged; unknown types are ignored. -/
def dispatchEvent (users : List UserInfo) (store : List TheaterMessage)
    (e : RawEvent) : Except String (List TheaterMessage) :=
  if e.evtype = "message" then handleMessageEvent users e store
  else if e.evtype = "update_message" then .ok (handleUpdateMessageEvent e store)
  else if e.evtype = "delete_message" then handleDeleteMessageEvent e store
  else .ok store

/-- Result of running the per-batch dispatch loop of `poll`:
the updated `lastEventId`, the updated store, the ids of the events on
which `dispatchEvent` was invoked (in invocation order), and the thrown
exception, if any. -/
structure ProcessResult where
  last : Int
  store : List TheaterMessage
  trace : List Int
  err : Option String
deriving Repr, DecidableEq

/-- The `for (const event of data.events)` loop of `poll`: per event, first
`lastEventId = Math.max(lastEventId, eventId)`, then `dispatchEvent`.
A thrown exception aborts the loop (it propagates to `poll`'s `catch`). -/
def processEvents (users : List UserInfo) (last : Int)
    (store : List TheaterMessage) : List RawEvent → ProcessResult
  | [] => { last := last, store := store, trace := [], err := none }
  | e :: rest =>
    let last1 := max last e.id
    match dispatchEvent users store e with
    | .ok store1 =>
      let r := processEvents users last1 store1 rest
      { r with trace := e.id :: r.trace }
    | .error msg => { last := last1, store := store, trace := [e.id], err := some msg }

/-- The module-level mutable state of handler.ts, plus the message store
the dispatched events act on. -/
structure ClientState where
  eventQueueId : Option String
  lastEventId : Int
  isPolling : Bool
  store : List TheaterMessage
deriving Repr, DecidableEq

/-- What one `poll` invocation does after its request settles. -/
inductive PollResponse where
  | httpError (status : Nat)
  | networkFailure
  | aborted
  | success (events : List RawEvent)
deriving Repr, DecidableEq

/-- How a `poll` invocation continues: the recursive `poll()` call on
success, the `setTimeout(poll, 5000)` retry from the `catch`, the
`window.location.reload()` on a 400, or nothing. -/
inductive PollAction where
  | noAction
  | reloadPage
  | retryAfterDelay
  | repollNow
deriving Repr, DecidableEq

/-- One iteration of `poll`, given how its request settled. -/
def pollStep (users : List UserInfo) (s : ClientState) (r : PollResponse) :
    ClientState × PollAction :=
  if ¬ s.isPolling ∨ s.eventQueueId = none then (s, .noAction)
  else
    match r with
    | .httpError status =>
      if status = 400 then (s, .reloadPage)
      else (s, .retryAfterDelay)
    | .networkFailure => (s, .retryAfterDelay)
    | .aborted => (s, .noAction)
    | .success events =>
      let res := processEvents users s.lastEventId s.store events
      let s1 := { s with lastEventId := res.last, store := res.store }
      (s1, if res.err.isSome then .retryAfterDelay else .repollNow)

/-- Whether the action schedules another `poll` invocation. -/
def continuesPolling : PollAction → Bool
  | .retryAfterDelay => true
  | .repollNow => true
  | _ => false

/-- Running the poll loop against a sequence of request outcomes; the loop
ends when an iteration schedules no further `poll`. -/
def pollRun (users : List UserInfo) (s : ClientState) :
    List PollResponse → ClientState
  | [] => s
  | r :: rs =>
    let p := pollStep users s r
    if continuesPolling p.2 then pollRun users p.1 rs else p.1

/-- Modelled from the spec: the whisper-visibility predicate
`isVisible(message, viewer)` of spec section 4.2 (sender exception, direct
user recipients, dynamic group membership).  No such predicate exists
anywhere in the client source; it is stated here only to compare the
handler's behaviour against it.  `groups` is the recipient directory's
group-membership lookup. -/
def specIsVisible (groups : List (Int × List Int)) (msg : TheaterMessage)
    (viewer : Int) : Bool :=
  match msg.whisper_recipients with
  | none => true
  | some wr =>
    viewer == msg.sender_id ||
    (wr.user_ids.getD []).contains viewer ||
    (wr.group_ids.getD []).any (fun g =>
      (match groups.find? (fun p : Int × List Int => p.1 == g) with
       | some pair => pair.2
       | none => ([] : List Int)).contains viewer)

/-! ## The typing store (createTypingStore)

`setTimeout`/`clearTimeout` are modelled with an explicit clock: the
`timeouts` map stores, per `"key:userId"` timeout key, the absolute time
(ms) at which the pending callback fires.  `fireTypistTimeout` runs a
pending callback (it is `removeTypist` in the source); a cancelled timeout
has no entry and firing is a no-op. -/

structure Typist where
  user_id : Int
  full_name : String
  persona_name : Option String
deriving Repr, DecidableEq

/-- Association-list model of a JavaScript `Map` (`lookup`). -/
def lookupA {β : Type} (k : String) : List (String × β) → Option β
  | [] => none
  | (k1, v) :: rest => if k1 = k then some v else lookupA k rest

/-- Model of `Map.set`: replace the existing entry in place, else append. -/
def setA {β : Type} (k : String) (v : β) : List (String × β) → List (String × β)
  | [] => [(k, v)]
  | (k1, v1) :: rest => if k1 = k then (k, v) :: rest else (k1, v1) :: setA k v rest

/-- Model of `Map.delete`. -/
def eraseA {β : Type} (k : String) (l : List (String × β)) : List (String × β) :=
  l.filter (fun p => p.1 ≠ k)

/-- The typing store's state: the `"streamId:topic" -> Typist[]` map and
the pending expiry timeouts. -/
structure TypingState where
  typists : List (String × List Typist)
  timeouts : List (String × Int)
deriving Repr, DecidableEq

/-- The `${key}:${userId}` timeout key. -/
def timeoutKey (key : String) (userId : Int) : String := s!"{key}:{userId}"

/-- Model of `clearTypistTimeout`: cancel the pending expiry for this key/user. -/
def clearTypistTimeout (key : String) (userId : Int) (st : TypingState) :
    TypingState :=
  { st with timeouts := eraseA (timeoutKey key userId) st.timeouts }

/-- Model of `setTypistTimeout` at current time `now`: cancel any pending expiry,
then schedule `removeTypist` 15000 ms from now. -/
def setTypistTimeout (now : Int) (key : String) (userId : Int)
    (st : TypingState) : TypingState :=
  let st1 := clearTypistTimeout key userId st
  { st1 with timeouts := setA (timeoutKey key userId) (now + 15000) st1.timeouts }

/-- Model of `removeTypist`: cancel the timer and drop the typist from the key's
list, deleting the key when the list empties. -/
def removeTypist (key : String) (userId : Int) (st : TypingState) :
    TypingState :=
  let st1 := clearTypistTimeout key userId st
  match lookupA key st1.typists with
  | none => st1
  | some existing =>
    let filtered := existing.filter (fun t => t.user_id ≠ userId)
    if filtered.length = 0 then { st1 with typists := eraseA key st1.typists }
    else { st1 with typists := setA key filtered st1.typists }

/-- Model of `addTypist` at current time `now`: add unless already present, then
(unconditionally) reset the 15-second expiry timer for this key/user. -/
def addTypist (now : Int) (key : String) (typist : Typist) (st : TypingState) :
    TypingState :=
  let existing := (lookupA key st.typists).getD []
  let typists1 :=
    if existing.any (fun t => t.user_id == typist.user_id) then st.typists
    else setA key (existing ++ [typist]) st.typists
  setTypistTimeout now key typist.user_id { st with typists := typists1 }

/-- Fire the pending expiry timeout for a key/user, if it is still
scheduled: the `setTimeout` callback is `removeTypist(key, userId)`. -/
def fireTypistTimeout (key : String) (userId : Int) (st : TypingState) :
    TypingState :=
  match lookupA (timeoutKey key userId) st.timeouts with
  | none => st
  | some _ => removeTypist key userId st

/-! ## The store-operation language for the store invariants -/

/-- The message-store mutations reachable from the event handler and the
initial-fetch path, as claimed by the store invariant. -/
inductive StoreOp where
  | add (m : TheaterMessage)
  | addBatch (ms : List TheaterMessage)
  | prepend (ms : List TheaterMessage)
  | update (mid : Option Int) (p : UpdatePatch)
  | remove (mid : Int)
  | markRead (mid : Int)

/-- Interpret one store operation. -/
def applyOp (store : List TheaterMessage) : StoreOp → List TheaterMessage
  | .add m => addMessage m store
  | .addBatch ms => addMessages ms store
  | .prepend ms => prependMessages ms store
  | .update mid p => updateMessage mid p store
  | .remove mid => removeMessage mid store
  | .markRead mid => markAsRead mid store

/-- Interpret a sequence of store operations from a starting store. -/
def applyOps (store : List TheaterMessage) : List StoreOp → List TheaterMessage
  | [] => store
  | op :: rest => applyOps (applyOp store op) rest

/-- The store's ordering invariant: ids are non-decreasing left to right. -/
def SortedById (l : List TheaterMessage) : Prop :=
  List.Pairwise msgLe l

/-- At most one stored message per id. -/
def NoDupIds (l : List TheaterMessage) : Prop :=
  (l.map (fun m => m.id)).Nodup

/-- The frame of a message update: every `TheaterMessage` field except
`content`, `rendered_content` and `topic` agrees. -/
def MsgFrame (m m1 : TheaterMessage) : Prop :=
  m1.id = m.id ∧ m1.msgtype = m.msgtype ∧ m1.sender_id = m.sender_id ∧
  m1.sender_full_name = m.sender_full_name ∧ m1.sender_email = m.sender_email ∧
  m1.avatar_url = m.avatar_url ∧ m1.timestamp = m.timestamp ∧
  m1.stream_id = m.stream_id ∧ m1.persona_id = m.persona_id ∧
  m1.persona_display_name = m.persona_display_name ∧
  m1.persona_avatar_url = m.persona_avatar_url ∧
  m1.persona_color = m.persona_color ∧
  m1.puppet_display_name = m.puppet_display_name ∧
  m1.puppet_avatar_url = m.puppet_avatar_url ∧
  m1.whisper_recipients = m.whisper_recipients ∧
  m1.characterName = m.characterName ∧ m1.characterAvatar = m.characterAvatar ∧
  m1.characterColor = m.characterColor ∧ m1.isWhisper = m.isWhisper ∧
  m1.whisperRecipientsText = m.whisperRecipientsText ∧ m1.isRead = m.isRead ∧
  m1.streamId = m.streamId

/-! ## Concrete sample data for counterexamples and witnesses -/

/-- A plain (non-whisper) stream message payload. -/
def baseRaw : RawMessage :=
  { id := 1, msgtype := "stream", sender_id := 7, sender_full_name := "Alice"
    sender_email := "alice@example.com", avatar_url := none, content := "hello"
    rendered_content := none, timestamp := 0, stream_id := some 1
    subject := none, topic := some "X", persona_id := none
    persona_display_name := none, persona_avatar_url := none
    persona_color := none, puppet_display_name := none
    puppet_avatar_url := none, whisper_recipients := none, flags := none }

/-- Model of `baseRaw` with a given id and content. -/
def rawWith (i : Int) (c : String) : RawMessage :=
  { baseRaw with id := i, content := c }

/-- A well-formed `message` event carrying the given payload. -/
def msgEvent (i : Int) (raw : RawMessage) : RawEvent :=
  { id := i, evtype := "message", message := some raw, message_id := none
    content := none, rendered_content := none, subject := none, topic := none
    message_ids := none }

/-- A `message` event whose `message` payload is absent (malformed). -/
def malformedMsgEvent : RawEvent :=
  { id := 1, evtype := "message", message := none, message_id := none
    content := none, rendered_content := none, subject := none, topic := none
    message_ids := none }

/-- The converted form of `rawWith i c`, with no users loaded. -/
def sampleMsg (i : Int) (c : String) : TheaterMessage :=
  toTheaterMessage [] (rawWith i c)

/-- A whisper from user 7 addressed only to user 10. -/
def rawWhisper : RawMessage :=
  { baseRaw with whisper_recipients := some (some { user_ids := some [10], group_ids := none }) }

/-- A whisper payload whose recipient sets are present but all empty. -/
def rawEmptyWhisper : RawMessage :=
  { baseRaw with whisper_recipients := some (some { user_ids := none, group_ids := none }) }

/-- An `update_message` event patching message 5's content. -/
def updEvent : RawEvent :=
  { id := 9, evtype := "update_message", message := none, message_id := some 5
    content := some "edited", rendered_content := some "<p>edited</p>"
    subject := none, topic := none, message_ids := none }

/-- A live polling state (queue registered, loop running, empty store). -/
def initS : ClientState :=
  { eventQueueId := some "q-1", lastEventId := -1, isPolling := true, store := [] }

/-! ## Helper lemmas -/

theorem sortById_perm (l : List TheaterMessage) : List.Perm (sortById l) l :=
  List.perm_insertionSort msgLe l

theorem sortById_sorted (l : List TheaterMessage) : SortedById (sortById l) :=
  List.sorted_insertionSort msgLe l

theorem mem_sortById {a : TheaterMessage} {l : List TheaterMessage} :
    a ∈ sortById l ↔ a ∈ l :=
  (sortById_perm l).mem_iff

theorem dedupById_sublist : ∀ (l : List TheaterMessage) (seen : List Int),
    List.Sublist (dedupById seen l) l
  | [], _ => List.Sublist.refl _
  | m :: rest, seen => by
    rw [dedupById]
    by_cases h : m.id ∈ seen
    · simp only [h, if_true]
      exact (dedupById_sublist rest seen).cons m
    · simp only [h, if_false]
      exact (dedupById_sublist rest (m.id :: seen)).cons₂ m

theorem dedupById_nodup : ∀ (l : List TheaterMessage) (seen : List Int),
    ((dedupById seen l).map (fun m => m.id)).Nodup ∧
    ∀ i ∈ (dedupById seen l).map (fun m => m.id), i ∉ seen
  | [], _ => by simp [dedupById]
  | m :: rest, seen => by
    rw [dedupById]
    by_cases h : m.id ∈ seen
    · simp only [h, if_true]
      exact dedupById_nodup rest seen
    · simp only [h, if_false, List.map_cons, List.nodup_cons, List.mem_cons]
      have ih := dedupById_nodup rest (m.id :: seen)
      refine ⟨⟨fun hmem => ?_, ih.1⟩, ?_⟩
      · exact (ih.2 _ hmem) (List.mem_cons_self _ _)
      · rintro i (rfl | hi)
        · exact h
        · intro hseen
          exact (ih.2 i hi) (List.mem_cons_of_mem _ hseen)

theorem sorted_of_sublist {l1 l2 : List TheaterMessage} (h : List.Sublist l1 l2)
    (hs : SortedById l2) : SortedById l1 :=
  List.Pairwise.sublist h hs

/-- A map that keeps ids fixed preserves the ordering invariant. -/
theorem sorted_map_preserving {f : TheaterMessage → TheaterMessage}
    (hf : ∀ m, (f m).id = m.id) {l : List TheaterMessage}
    (hs : SortedById l) : SortedById (l.map f) := by
  rw [SortedById, List.pairwise_map]
  exact hs.imp (fun {a b} hab => by
    simp only [msgLe, hf] at *
    exact hab)

theorem applyPatch_id (m : TheaterMessage) (p : UpdatePatch) :
    (applyPatch m p).id = m.id := rfl

theorem sorted_applyOp (op : StoreOp) {st : List TheaterMessage}
    (hs : SortedById st) : SortedById (applyOp st op) := by
  cases op with
  | add m => exact sortById_sorted _
  | addBatch ms =>
    exact sorted_of_sublist (dedupById_sublist _ _) (sortById_sorted _)
  | prepend ms =>
    exact sorted_of_sublist (dedupById_sublist _ _) (sortById_sorted _)
  | update mid p =>
    refine sorted_map_preserving (fun m => ?_) hs
    by_cases h : some m.id = mid <;> simp [h, applyPatch_id]
  | remove mid =>
    exact sorted_of_sublist (List.filter_sublist st) hs
  | markRead mid =>
    refine sorted_map_preserving (fun m => ?_) hs
    by_cases h : m.id = mid <;> simp [h]

theorem sorted_applyOps : ∀ (ops : List StoreOp) {st : List TheaterMessage},
    SortedById st → SortedById (applyOps st ops)
  | [], _, hs => hs
  | op :: rest, _, hs => sorted_applyOps rest (sorted_applyOp op hs)

/-- Model of `Forall₂` between a list and its image under a map. -/
theorem forall2_map_self {R : TheaterMessage → TheaterMessage → Prop}
    {f : TheaterMessage → TheaterMessage} (h : ∀ a, R a (f a)) :
    ∀ l : List TheaterMessage, List.Forall₂ R l (l.map f)
  | [] => List.Forall₂.nil
  | a :: rest => List.Forall₂.cons (h a) (forall2_map_self h rest)

theorem map_id_of_mem {α : Type} {f : α → α} :
    ∀ {l : List α}, (∀ a ∈ l, f a = a) → l.map f = l
  | [], _ => rfl
  | a :: rest, h => by
    simp only [List.map_cons]
    rw [h a (List.mem_cons_self _ _), map_id_of_mem (fun x hx => h x (List.mem_cons_of_mem _ hx))]

theorem msgFrame_refl (m : TheaterMessage) : MsgFrame m m := by
  refine ⟨rfl, rfl, rfl, rfl, rfl, rfl, rfl, rfl, rfl, rfl, rfl,
    rfl, rfl, rfl, rfl, rfl, rfl, rfl, rfl, rfl, rfl, rfl⟩

theorem msgFrame_applyPatch (m : TheaterMessage) (p : UpdatePatch) :
    MsgFrame m (applyPatch m p) := by
  refine ⟨rfl, rfl, rfl, rfl, rfl, rfl, rfl, rfl, rfl, rfl, rfl,
    rfl, rfl, rfl, rfl, rfl, rfl, rfl, rfl, rfl, rfl, rfl⟩

theorem lookupA_setA {β : Type} (k : String) (v : β) :
    ∀ l : List (String × β), lookupA k (setA k v l) = some v
  | [] => by simp [setA, lookupA]
  | (k1, v1) :: rest => by
    rw [setA]
    by_cases h : k1 = k
    · simp [h, lookupA]
    · simp only [h, if_false, lookupA, lookupA_setA k v rest]

theorem lookupA_eraseA {β : Type} (k : String) :
    ∀ l : List (String × β), lookupA k (eraseA k l) = none
  | [] => rfl
  | (k1, v1) :: rest => by
    have ih := lookupA_eraseA k rest
    by_cases h : k1 = k
    · simpa [eraseA, List.filter_cons, h] using ih
    · simpa [eraseA, List.filter_cons, h, lookupA] using ih

theorem all_filter_self {α : Type} (p : α → Bool) :
    ∀ l : List α, (l.filter p).all p = true
  | [] => rfl
  | a :: rest => by
    rw [List.filter]
    cases h : p a
    · exact all_filter_self p rest
    · simp only [List.all_cons, h, Bool.true_and]
      exact all_filter_self p rest

/-- Firing `removeTypist` leaves no typist with the removed user id under
the key. -/
theorem removeTypist_all (key : String) (u : Int) (st : TypingState) :
    ((lookupA key (removeTypist key u st).typists).getD []).all
      (fun t => t.user_id ≠ u) = true := by
  rw [removeTypist]
  cases h : lookupA key (clearTypistTimeout key u st).typists with
  | none => simp [h]
  | some existing =>
    simp only [h]
    by_cases hz : (existing.filter (fun t => t.user_id ≠ u)).length = 0
    · simp only [hz, if_true, lookupA_eraseA, Option.getD_none, List.all_nil]
    · simp only [hz, if_false, lookupA_setA, Option.getD_some]
      exact all_filter_self _ existing

/-- The per-event loop never decreases `lastEventId`. -/
theorem processEvents_last_mono (users : List UserInfo) :
    ∀ (evs : List RawEvent) (last : Int) (store : List TheaterMessage),
      last ≤ (processEvents users last store evs).last
  | [], last, store => le_refl _
  | e :: rest, last, store => by
    rw [processEvents]
    cases h : dispatchEvent users store e with
    | ok s1 =>
      simp only
      exact le_trans (le_max_left last e.id)
        (processEvents_last_mono users rest (max last e.id) s1)
    | error msg => exact le_max_left last e.id

/-- When no dispatch throws, the loop dispatches each event exactly once
in arrival order and advances `lastEventId` to the running maximum. -/
theorem processEvents_ok (users : List UserInfo) :
    ∀ (evs : List RawEvent) (last : Int) (store : List TheaterMessage),
      (processEvents users last store evs).err = none →
      (processEvents users last store evs).trace = evs.map (fun e => e.id) ∧
      (processEvents users last store evs).last
        = evs.foldl (fun a e => max a e.id) last
  | [], last, store, _ => by simp [processEvents]
  | e :: rest, last, store, h => by
    rw [processEvents] at h ⊢
    cases hd : dispatchEvent users store e with
    | ok s1 =>
      simp only [hd] at h ⊢
      have ih := processEvents_ok users rest (max last e.id) s1 h
      simp only [List.map_cons, List.foldl_cons]
      exact ⟨by rw [ih.1], ih.2⟩
    | error msg => simp [hd] at h

/-- One poll iteration never decreases `lastEventId`. -/
theorem pollStep_mono (users : List UserInfo) (s : ClientState)
    (r : PollResponse) : s.lastEventId ≤ (pollStep users s r).1.lastEventId := by
  rw [pollStep.eq_def]
  split
  · exact le_refl _
  · cases r with
    | httpError status =>
      simp only
      split <;> exact le_refl _
    | networkFailure => exact le_refl _
    | aborted => exact le_refl _
    | success events =>
      exact processEvents_last_mono users events s.lastEventId s.store

/-- Across any run of the poll loop, `lastEventId` is non-decreasing. -/
theorem pollRun_mono (users : List UserInfo) :
    ∀ (rs : List PollResponse) (s : ClientState),
      s.lastEventId ≤ (pollRun users s rs).lastEventId
  | [], s => le_refl _
  | r :: rs, s => by
    rw [pollRun]
    split
    · exact le_trans (pollStep_mono users s r) (pollRun_mono users rs _)
    · exact pollStep_mono users s r

/-! ## Claim theorems -/

/-- Claim C1 counterexample: the handler does not gate insertion on visibility.
`rawWhisper` is a whisper from user 7 addressed only to user 10; for local
viewer 20 the spec's `isVisible` predicate is false, yet dispatching the
`message` event stores the message. -/
theorem c1_whisper_stored_though_invisible :
    dispatchEvent [] [] (msgEvent 1 rawWhisper)
      = Except.ok [toTheaterMessage [] rawWhisper] ∧
    specIsVisible [] (toTheaterMessage [] rawWhisper) 20 = false := by
  exact ⟨rfl, rfl⟩

/-- Claim C1 amended: for every well-formed `message` event, the constructed
theater message is added to the local store unconditionally — no
visibility predicate is consulted, so messages invisible to the local
viewer are stored as well. -/
theorem c1_amended_unconditional_insert (users : List UserInfo)
    (store : List TheaterMessage) (e : RawEvent) (raw : RawMessage)
    (ht : e.evtype = "message") (hm : e.message = some raw) :
    ∃ store1, dispatchEvent users store e = Except.ok store1 ∧
      toTheaterMessage users raw ∈ store1 := by
  refine ⟨addMessage (toTheaterMessage users raw) store, ?_, ?_⟩
  · simp [dispatchEvent, ht, handleMessageEvent, hm]
  · rw [addMessage, mem_sortById]
    exact List.mem_append.mpr (Or.inr (List.mem_singleton.mpr rfl))

/-- Claim C1 amended, witness at the concrete invisible whisper. -/
theorem c1_amended_witness :
    ∃ store1, dispatchEvent [] [] (msgEvent 1 rawWhisper) = Except.ok store1 ∧
      toTheaterMessage [] rawWhisper ∈ store1 :=
  c1_amended_unconditional_insert [] [] (msgEvent 1 rawWhisper) rawWhisper rfl rfl

/-- Claim C2 counterexample: a batch delivered with ids 5, 3, 4 is dispatched in
exactly that arrival order — the client does not re-sort — even though
`lastEventId` does end at 5. -/
theorem c2_batch_not_sorted_before_dispatch :
    (processEvents [] (-1) []
        [msgEvent 5 (rawWith 1 "a"), msgEvent 3 (rawWith 2 "b"),
         msgEvent 4 (rawWith 3 "c")]).trace = [5, 3, 4] ∧
    ¬ List.Pairwise (fun a b => a ≤ b)
      (processEvents [] (-1) []
        [msgEvent 5 (rawWith 1 "a"), msgEvent 3 (rawWith 2 "b"),
         msgEvent 4 (rawWith 3 "c")]).trace ∧
    (processEvents [] (-1) []
        [msgEvent 5 (rawWith 1 "a"), msgEvent 3 (rawWith 2 "b"),
         msgEvent 4 (rawWith 3 "c")]).last = 5 := by
  refine ⟨rfl, ?_, rfl⟩
  intro h
  have h53 : (5 : Int) ≤ 3 := by
    have := List.rel_of_pairwise_cons h (List.mem_cons_self 3 [4])
    exact this
  omega

/-- Claim C2 amended: when no dispatch throws, the client dispatches each event
of the batch exactly once, in arrival order (not re-sorted), and
`lastEventId` ends at the running maximum of the initial value and the
batch's event ids. -/
theorem c2_amended_dispatch_arrival_order (users : List UserInfo)
    (last : Int) (store : List TheaterMessage) (evs : List RawEvent)
    (hok : (processEvents users last store evs).err = none) :
    (processEvents users last store evs).trace = evs.map (fun e => e.id) ∧
    (processEvents users last store evs).last
      = evs.foldl (fun a e => max a e.id) last :=
  processEvents_ok users evs last store hok

/-- Claim C2 amended, witness on the 5, 3, 4 batch. -/
theorem c2_amended_witness :
    (processEvents [] (-1) []
        [msgEvent 5 (rawWith 1 "a"), msgEvent 3 (rawWith 2 "b"),
         msgEvent 4 (rawWith 3 "c")]).trace
      = List.map (fun e => e.id)
          [msgEvent 5 (rawWith 1 "a"), msgEvent 3 (rawWith 2 "b"),
           msgEvent 4 (rawWith 3 "c")] ∧
    (processEvents [] (-1) []
        [msgEvent 5 (rawWith 1 "a"), msgEvent 3 (rawWith 2 "b"),
         msgEvent 4 (rawWith 3 "c")]).last
      = List.foldl (fun a e => max a e.id) (-1)
          [msgEvent 5 (rawWith 1 "a"), msgEvent 3 (rawWith 2 "b"),
           msgEvent 4 (rawWith 3 "c")] :=
  c2_amended_dispatch_arrival_order [] (-1) []
    [msgEvent 5 (rawWith 1 "a"), msgEvent 3 (rawWith 2 "b"),
     msgEvent 4 (rawWith 3 "c")] rfl

/-- Claim C3 counterexample: delivering the same `message` event twice leaves
two stored copies of message id 1, not one. -/
theorem c3_duplicate_event_stores_two_copies :
    (processEvents [] (-1) []
        [msgEvent 10 (rawWith 1 "dup"), msgEvent 10 (rawWith 1 "dup")]).store.map
        (fun m => m.id) = [1, 1] := by
  rfl

/-- Claim C3 amended: `addMessage` (the path taken by the `message` event
handler) appends and re-sorts without any deduplication, so a repeated
insertion always yields at least two stored copies of the id; only the
batch operations `addMessages`/`prependMessages` dedup by id. -/
theorem c3_amended_addMessage_not_idempotent (msg : TheaterMessage)
    (store : List TheaterMessage) :
    2 ≤ List.countP (fun m => m.id == msg.id)
        (addMessage msg (addMessage msg store)) := by
  have p1 : List.Perm (addMessage msg store) (store ++ [msg]) := sortById_perm _
  have p2 : List.Perm (addMessage msg (addMessage msg store))
      ((store ++ [msg]) ++ [msg]) :=
    List.Perm.trans (sortById_perm _) (List.Perm.append p1 (List.Perm.refl [msg]))
  rw [p2.countP_eq]
  simp [List.countP_append, List.countP_cons]

/-- Claim C4: for any sequence of poll outcomes, `lastEventId` is monotonically
non-decreasing; a failed poll (non-OK response, including 400, or a
network error) leaves the client state unchanged; and a successful poll
whose dispatch loop does not throw advances `lastEventId` to the running
maximum of the previous value and the batch's event ids. -/
theorem c4_lastEventId_monotone (users : List UserInfo) (s : ClientState)
    (rs : List PollResponse) (status : Nat) (evs : List RawEvent)
    (hp : s.isPolling = true) (hq : s.eventQueueId.isSome = true)
    (hok : (processEvents users s.lastEventId s.store evs).err = none) :
    s.lastEventId ≤ (pollRun users s rs).lastEventId ∧
    (pollStep users s (PollResponse.httpError status)).1 = s ∧
    (pollStep users s PollResponse.networkFailure).1 = s ∧
    (pollStep users s (PollResponse.success evs)).1.lastEventId
      = evs.foldl (fun a e => max a e.id) s.lastEventId := by
  obtain ⟨q, hq2⟩ := Option.isSome_iff_exists.mp hq
  refine ⟨pollRun_mono users rs s, ?_, ?_, ?_⟩
  · rw [pollStep.eq_def]
    simp only [hp, hq2]
    split
    · rfl
    · split <;> rfl
  · rw [pollStep.eq_def]
    simp only [hp, hq2]
    split
    · rfl
    · rfl
  · rw [pollStep.eq_def]
    simp only [hp, hq2]
    split
    · rename_i hcontra
      simp at hcontra
    · exact (processEvents_ok users evs s.lastEventId s.store hok).2

/-- Claim C4 witness: a concrete run from the freshly registered state. -/
theorem c4_witness :
    initS.lastEventId ≤ (pollRun [] initS [PollResponse.networkFailure]).lastEventId ∧
    (pollStep [] initS (PollResponse.httpError 500)).1 = initS ∧
    (pollStep [] initS PollResponse.networkFailure).1 = initS ∧
    (pollStep [] initS (PollResponse.success [msgEvent 3 (rawWith 1 "a")])).1.lastEventId
      = List.foldl (fun a e => max a e.id) initS.lastEventId
          [msgEvent 3 (rawWith 1 "a")] :=
  c4_lastEventId_monotone [] initS [PollResponse.networkFailure] 500
    [msgEvent 3 (rawWith 1 "a")] rfl rfl rfl

/-- Claim C5: on the queue-expired error (HTTP 400), the poll iteration's
continuation is the page reload, which schedules no further poll; the
poll loop ends immediately, so the dead queue id is never polled again. -/
theorem c5_queue_expired_never_repolls (users : List UserInfo)
    (s : ClientState) (hp : s.isPolling = true)
    (hq : s.eventQueueId.isSome = true) :
    pollStep users s (PollResponse.httpError 400) = (s, PollAction.reloadPage) ∧
    continuesPolling (pollStep users s (PollResponse.httpError 400)).2 = false ∧
    ∀ rs : List PollResponse,
      pollRun users s (PollResponse.httpError 400 :: rs) = s := by
  obtain ⟨q, hq2⟩ := Option.isSome_iff_exists.mp hq
  have hstep : pollStep users s (PollResponse.httpError 400) = (s, PollAction.reloadPage) := by
    rw [pollStep.eq_def]
    simp [hp, hq2]
  refine ⟨hstep, by rw [hstep]; rfl, ?_⟩
  intro rs
  rw [pollRun]
  simp [hstep, continuesPolling]

/-- Claim C5 witness: the freshly registered state, hit by a 400 twice over. -/
theorem c5_witness :
    pollStep [] initS (PollResponse.httpError 400) = (initS, PollAction.reloadPage) ∧
    pollRun [] initS [PollResponse.httpError 400, PollResponse.httpError 400] = initS :=
  ⟨(c5_queue_expired_never_repolls [] initS rfl rfl).1,
   (c5_queue_expired_never_repolls [] initS rfl rfl).2.2 [PollResponse.httpError 400]⟩

/-- Claim C6 counterexample: a batch whose first event is a `message` event with
no `message` payload throws; the exception escapes the dispatch loop
(`err` is set) and the well-formed second event is never applied — the
store stays empty and only the first event was attempted. -/
theorem c6_malformed_event_halts_batch :
    (processEvents [] (-1) [] [malformedMsgEvent, msgEvent 2 (rawWith 2 "ok")]).err.isSome = true ∧
    (processEvents [] (-1) [] [malformedMsgEvent, msgEvent 2 (rawWith 2 "ok")]).store = [] ∧
    (processEvents [] (-1) [] [malformedMsgEvent, msgEvent 2 (rawWith 2 "ok")]).trace = [1] :=
  ⟨rfl, rfl, rfl⟩

/-- Claim C6 amended: a `message` event with an absent payload makes the
dispatch loop throw: the exception propagates out of the per-batch loop
(to `poll`'s catch, which logs and schedules a retry), the store is left
as it was, no later event of the batch is dispatched, and `lastEventId`
has still been advanced past the malformed event. -/
theorem c6_amended_malformed_event_aborts_batch (users : List UserInfo)
    (last : Int) (store : List TheaterMessage) (e : RawEvent)
    (rest : List RawEvent) (ht : e.evtype = "message") (hm : e.message = none) :
    (processEvents users last store (e :: rest)).err
      = some "TypeError: cannot read properties of undefined" ∧
    (processEvents users last store (e :: rest)).store = store ∧
    (processEvents users last store (e :: rest)).trace = [e.id] ∧
    (processEvents users last store (e :: rest)).last = max last e.id := by
  have hd : dispatchEvent users store e
      = Except.error "TypeError: cannot read properties of undefined" := by
    simp [dispatchEvent, ht, handleMessageEvent, hm]
  rw [processEvents]
  simp [hd]

/-- Claim C6 amended, witness on the concrete malformed batch. -/
theorem c6_amended_witness :
    (processEvents [] (-1) [] [malformedMsgEvent, msgEvent 2 (rawWith 2 "ok")]).err
      = some "TypeError: cannot read properties of undefined" ∧
    (processEvents [] (-1) [] [malformedMsgEvent, msgEvent 2 (rawWith 2 "ok")]).store = [] ∧
    (processEvents [] (-1) [] [malformedMsgEvent, msgEvent 2 (rawWith 2 "ok")]).trace
      = [malformedMsgEvent.id] ∧
    (processEvents [] (-1) [] [malformedMsgEvent, msgEvent 2 (rawWith 2 "ok")]).last
      = max (-1) malformedMsgEvent.id :=
  c6_amended_malformed_event_aborts_batch [] (-1) [] malformedMsgEvent
    [msgEvent 2 (rawWith 2 "ok")] rfl rfl

/-- Any `addTypist` (re)schedules the key/user expiry at `now + 15000`. -/
theorem addTypist_timeout (st : TypingState) (now : Int) (key : String)
    (t : Typist) :
    lookupA (timeoutKey key t.user_id) (addTypist now key t st).timeouts
      = some (now + 15000) := by
  simp [addTypist, setTypistTimeout, clearTypistTimeout, lookupA_setA]

/-- Claim C7: a `typing-start` for (key, user) schedules the typist's expiry
exactly 15000 ms after the start; a later `typing-start` for the same key
and user cancels it and reschedules 15000 ms after the newer start; and
when the pending expiry fires, the typist entry is removed. -/
theorem c7_typing_expiry (st : TypingState) (now : Int) (key : String)
    (u : Int) (name : String) (pn : Option String) :
    lookupA (timeoutKey key u)
        (addTypist now key ⟨u, name, pn⟩ st).timeouts = some (now + 15000) ∧
    (∀ now2 : Int, lookupA (timeoutKey key u)
        (addTypist now2 key ⟨u, name, pn⟩
          (addTypist now key ⟨u, name, pn⟩ st)).timeouts = some (now2 + 15000)) ∧
    ((lookupA key
        (fireTypistTimeout key u (addTypist now key ⟨u, name, pn⟩ st)).typists).getD
        []).all (fun t => t.user_id ≠ u) = true := by
  refine ⟨addTypist_timeout st now key ⟨u, name, pn⟩, ?_, ?_⟩
  · intro now2
    exact addTypist_timeout _ now2 key ⟨u, name, pn⟩
  · rw [fireTypistTimeout]
    rw [addTypist_timeout st now key ⟨u, name, pn⟩]
    exact removeTypist_all key u _

/-- Claim C8: an `update_message` event changes at most the message whose id is
the event's `message_id`; every message keeps all fields other than
`content`, `rendered_content` and `topic` (the `MsgFrame`), every message
with a different id is entirely unchanged, and when no stored message has
the event's id the store is left exactly as it was. -/
theorem c8_update_frame (e : RawEvent) (store : List TheaterMessage) :
    List.Forall₂
      (fun m m1 => (some m.id ≠ e.message_id → m1 = m) ∧ MsgFrame m m1)
      store (handleUpdateMessageEvent e store) ∧
    ((∀ m ∈ store, some m.id ≠ e.message_id) →
      handleUpdateMessageEvent e store = store) := by
  by_cases hne : patchNonempty (patchOfEvent e)
  · simp only [handleUpdateMessageEvent, hne, if_true]
    constructor
    · refine forall2_map_self (fun m => ?_) store
      by_cases hid : some m.id = e.message_id
      · rw [if_pos hid]
        exact ⟨fun hcon => absurd hid hcon, msgFrame_applyPatch m _⟩
      · rw [if_neg hid]
        exact ⟨fun _ => rfl, msgFrame_refl m⟩
    · intro hall
      rw [updateMessage]
      refine map_id_of_mem (fun m hm => ?_)
      rw [if_neg (hall m hm)]
  · simp only [handleUpdateMessageEvent, hne, if_false]
    exact ⟨List.forall₂_same.mpr (fun m _ => ⟨fun _ => rfl, msgFrame_refl m⟩),
      fun _ => rfl⟩

/-- Claim C8 witness: patching message id 5 leaves a store holding only message
id 1 entirely unchanged. -/
theorem c8_witness :
    handleUpdateMessageEvent updEvent [sampleMsg 1 "x"] = [sampleMsg 1 "x"] :=
  (c8_update_frame updEvent [sampleMsg 1 "x"]).2 (by decide)

/-- Claim C9: whenever `whisper_recipients` is present and non-null — however
degenerate — the converted message is classified as a whisper, it keeps
the recipient record, and its recipient text is computed (total, no
crash). -/
theorem c9_whisper_flag (users : List UserInfo) (raw : RawMessage)
    (wr : WhisperRecipients)
    (hw : raw.whisper_recipients = some (some wr)) :
    (toTheaterMessage users raw).isWhisper = true ∧
    (toTheaterMessage users raw).whisper_recipients = some wr ∧
    (toTheaterMessage users raw).whisperRecipientsText
      = some (formatWhisperRecipientsWithNames users (some wr)) := by
  simp [toTheaterMessage, hw]

/-- Claim C9 witness: the empty whisper-recipient object is still a whisper and
formats as the plain "whisper" label. -/
theorem c9_witness :
    (toTheaterMessage [] rawEmptyWhisper).isWhisper = true ∧
    (toTheaterMessage [] rawEmptyWhisper).whisper_recipients
      = some { user_ids := none, group_ids := none } ∧
    (toTheaterMessage [] rawEmptyWhisper).whisperRecipientsText
      = some (formatWhisperRecipientsWithNames []
          (some { user_ids := none, group_ids := none })) ∧
    formatWhisperRecipientsWithNames []
      (some { user_ids := none, group_ids := none }) = "whisper" :=
  ⟨(c9_whisper_flag [] rawEmptyWhisper _ rfl).1,
   (c9_whisper_flag [] rawEmptyWhisper _ rfl).2.1,
   (c9_whisper_flag [] rawEmptyWhisper _ rfl).2.2, rfl⟩

/-- Claim C10 counterexample: on an id collision, `prependMessages` keeps the
incoming copy, not the copy already in the store. -/
theorem c10_prepend_keeps_incoming_copy :
    prependMessages [sampleMsg 1 "new"] [sampleMsg 1 "old"] = [sampleMsg 1 "new"] ∧
    sampleMsg 1 "new" ≠ sampleMsg 1 "old" := by
  refine ⟨rfl, ?_⟩
  decide

/-- Claim C10 amended: from the empty store, every operation sequence keeps the
list sorted by id; `addMessages` and `prependMessages` leave at most one
message per id; on an id collision `addMessages` keeps the copy already
in the store while `prependMessages` keeps the incoming copy. -/
theorem c10_amended_store_invariants (ops : List StoreOp)
    (ms st : List TheaterMessage) (a b : TheaterMessage) (hab : a.id = b.id) :
    SortedById (applyOps [] ops) ∧
    NoDupIds (addMessages ms st) ∧
    NoDupIds (prependMessages ms st) ∧
    addMessages [b] [a] = [a] ∧
    prependMessages [b] [a] = [b] := by
  have hle : msgLe a b := by rw [msgLe, hab]
  have hle2 : msgLe b a := by rw [msgLe, hab]
  refine ⟨sorted_applyOps ops List.Pairwise.nil,
    (dedupById_nodup _ []).1, (dedupById_nodup _ []).1, ?_, ?_⟩
  · simp [addMessages, sortById, List.insertionSort, List.orderedInsert,
      hle, dedupById, hab]
  · simp [prependMessages, sortById, List.insertionSort, List.orderedInsert,
      hle2, dedupById, hab]

/-- Claim C10 amended, witness at singleton stores with a colliding id. -/
theorem c10_amended_witness :
    SortedById (applyOps [] []) ∧
    NoDupIds (addMessages [] []) ∧
    NoDupIds (prependMessages [] []) ∧
    addMessages [sampleMsg 1 "q"] [sampleMsg 1 "p"] = [sampleMsg 1 "p"] ∧
    prependMessages [sampleMsg 1 "q"] [sampleMsg 1 "p"] = [sampleMsg 1 "q"] :=
  c10_amended_store_invariants [] [] [] (sampleMsg 1 "p") (sampleMsg 1 "q") rfl

end Tulip
